import Mathlib

/-!
# Verification of the habibi backend's presence and messaging core

This file gives a shallow embedding, in Lean 4, of the message-lifecycle,
conversation and connection-registry code of the habibi backend
(`backend/app/core/websocket.py`, `backend/app/api/v1/endpoints/messages.py`,
`backend/app/api/v1/endpoints/conversations.py`,
`backend/app/api/v1/endpoints/websocket.py`), together with theorems about
the embedded operations.

Modelling conventions:
* Mongo ObjectIds (user, conversation, message ids) and websocket handles are
  modelled as natural numbers; `datetime` timestamps as natural numbers
  (seconds).  `timedelta(hours=1)` is `3600`.
* Python dicts keyed by insertion order are association lists; Python sets of
  websockets are duplicate-free lists.
* Mongo collections are lists of documents in natural (insertion) order;
  `find_one` is `List.find?`, `insert_one` appends, `update_one` rewrites the
  first matching document.
* Network sends are not executed: an operation returns the list of
  `send_to_user` / per-connection deliveries it would perform, so that
  broadcast behaviour can be counted.  Send failures (which in the source
  merely drop the failing connection) are not modelled.
-/

namespace Habibi

/-- User identifiers (Mongo ObjectIds in the source). -/
abbrev UserId := Nat

/-- Conversation identifiers. -/
abbrev ConvId := Nat

/-- Message identifiers. -/
abbrev MsgId := Nat

/-- Websocket connection handles. -/
abbrev ConnId := Nat

/-- Timestamps, in seconds. -/
abbrev Time := Nat

/-! ## Association-list helpers (Python `dict` semantics) -/

/-- Python `d.get(k)`: first binding of `k`, if any. -/
def alookup {α β : Type} [BEq α] (m : List (α × β)) (k : α) : Option β :=
  (m.find? (fun p => p.1 == k)).map (fun p => p.2)

/-- Python `d[k] = v`: replace the binding of `k` in place, or append it. -/
def aset {α β : Type} [BEq α] (m : List (α × β)) (k : α) (v : β) : List (α × β) :=
  if (m.find? (fun p => p.1 == k)).isSome then
    m.map (fun p => if p.1 == k then (k, v) else p)
  else
    m ++ [(k, v)]

/-- Python `del d[k]` (a no-op when `k` is absent, as after a guarded `in`). -/
def aerase {α β : Type} [BEq α] (m : List (α × β)) (k : α) : List (α × β) :=
  m.filter (fun p => p.1 != k)

/-- Mongo `update_one`: rewrite the first document matching `pred`. -/
def update_first {α : Type} (l : List α) (pred : α → Bool) (f : α → α) : List α :=
  match l with
  | [] => []
  | x :: xs => if pred x then f x :: xs else x :: update_first xs pred f

/-! ## Data model (`backend/app/models`, as stored in Mongo) -/

/-- `RecipientKey` (`models/message.py`): a wrapped symmetric key. -/
structure RecipientKey where
  user_id : UserId
  device_id : Nat
  encrypted_key : String
deriving Repr, DecidableEq

/-- One entry of `status.delivered_to`. -/
structure DeliveryStatus where
  user_id : UserId
  delivered_at : Time
deriving Repr, DecidableEq

/-- One entry of `status.read_by`. -/
structure ReadStatus where
  user_id : UserId
  read_at : Time
deriving Repr, DecidableEq

/-- `MessageStatus` (`models/message.py`). -/
structure MessageStatus where
  sent_at : Time
  delivered_to : List DeliveryStatus
  read_by : List ReadStatus
deriving Repr, DecidableEq

/-- `MessageMetadata` (`models/message.py`), the non-encrypted metadata dict
    built in `send_message`. -/
structure MessageMetadata where
  media_url : Option String := none
  media_thumbnail : Option String := none
  file_size : Option Nat := none
  duration : Option Nat := none
  reply_to : Option MsgId := none
  is_ephemeral : Bool := false
  ttl_seconds : Option Nat := none
  expires_at : Option Time := none
  view_once : Bool := false
  viewed_by : List UserId := []
deriving Repr, DecidableEq

/-- A message document as inserted by `send_message` (`endpoints/messages.py`). -/
structure Message where
  id : MsgId
  conversation_id : ConvId
  sender_id : UserId
  content : String
  encrypted_content : String
  content_type : String
  recipient_keys : List RecipientKey
  metadata : MessageMetadata
  status : MessageStatus
  deleted_for : List UserId
  deleted_for_everyone : Bool
  deleted_at : Option Time
  created_at : Time
deriving Repr, DecidableEq

/-- One element of a conversation's `participants` array. -/
structure ConversationParticipant where
  user_id : UserId
  joined_at : Time
  left_at : Option Time := none
  last_read_at : Option Time := none
  notifications_enabled : Bool := true
deriving Repr, DecidableEq

/-- A conversation's denormalized `last_message` preview. -/
structure LastMessage where
  message_id : MsgId
  encrypted_preview : String
  timestamp : Time
  sender_id : UserId
deriving Repr, DecidableEq

/-- A conversation's `metadata` sub-document. -/
structure ConversationMetadata where
  created_at : Time
  updated_at : Time
  archived_by : List UserId
deriving Repr, DecidableEq

/-- A conversation document as inserted by `create_or_get_conversation`. -/
structure Conversation where
  id : ConvId
  type : String
  participants : List ConversationParticipant
  participant_ids : List UserId
  last_message : Option LastMessage
  metadata : ConversationMetadata
deriving Repr, DecidableEq

/-- One element of the `friends` array read by `notify_contacts_status`. -/
structure FriendEntry where
  user_id : UserId
  status : String
deriving Repr, DecidableEq

/-- A user's `status` sub-document. -/
structure UserStatus where
  online : Bool := false
  last_seen : Option Time := none
deriving Repr, DecidableEq

/-- A user document, restricted to the fields the embedded core reads.
    `friends := none` models the `friends` key being absent from the Mongo
    document; the registration path (`endpoints/auth.py`, which inserts
    `User.model_dump()` of `models/user.py`) never writes such a key. -/
structure User where
  id : UserId
  username : String
  full_name : String := ""
  avatar_url : Option String := none
  status : UserStatus := {}
  friends : Option (List FriendEntry) := none
deriving Repr, DecidableEq

/-- A document of the `friendships` collection (`models/friendship.py`). -/
structure Friendship where
  id : Nat
  requester_id : UserId
  addressee_id : UserId
  status : String
deriving Repr, DecidableEq

/-- The document store: the collections touched by the embedded core. -/
structure DB where
  users : List User
  conversations : List Conversation
  messages : List Message
  friendships : List Friendship
deriving Repr, DecidableEq

/-- `db.users.find_one({"_id": uid})`. -/
def findUser (db : DB) (uid : UserId) : Option User :=
  db.users.find? (fun u => u.id == uid)

/-- `db.conversations.find_one({"_id": cid})`. -/
def findConversation (db : DB) (cid : ConvId) : Option Conversation :=
  db.conversations.find? (fun c => c.id == cid)

/-- `db.messages.find_one({"_id": mid})`. -/
def findMessage (db : DB) (mid : MsgId) : Option Message :=
  db.messages.find? (fun m => m.id == mid)

/-! ## Responses and errors -/

/-- `MessageResponse` (`models/message.py`), built by `format_message_response`. -/
structure MessageResponse where
  id : MsgId
  conversation_id : ConvId
  sender_id : UserId
  encrypted_content : String
  content_type : String
  recipient_keys : List RecipientKey
  metadata : MessageMetadata
  status : MessageStatus
  created_at : Time
  is_deleted : Bool
deriving Repr, DecidableEq

/-- `MessageListResponse` (`models/message.py`). -/
structure MessageListResponse where
  messages : List MessageResponse
  has_more : Bool
  total : Nat
deriving Repr, DecidableEq

/-- `HTTPException`s raised by the endpoints, by status code. -/
inductive ApiError where
  | badRequest (detail : String)
  | unauthorized (detail : String)
  | forbidden (detail : String)
  | notFound (detail : String)
deriving Repr, DecidableEq

/-! ## Server-to-client events (`endpoints/websocket.py`, `core/websocket.py`) -/

/-- The JSON frames the server pushes over a websocket. -/
inductive Event where
  | authenticated (user_id : UserId) (connected_at : Time)
  | new_message (message : MessageResponse)
  | message_status_update (message_id : MsgId) (status : String)
      (user_id : UserId) (timestamp : Time)
  | typing_indicator (conversation_id : ConvId) (user_id : UserId) (is_typing : Bool)
  | message_deleted (message_id : MsgId) (deleted_for_everyone : Bool)
  | user_online (user_id : UserId) (timestamp : Time)
  | user_offline (user_id : UserId) (timestamp : Time)
deriving Repr, DecidableEq

/-! ## ConnectionManager (`backend/app/core/websocket.py`) -/

/-- `ConnectionManager`: `active_connections : Dict[str, Set[WebSocket]]` and
    the reverse map `connection_users : Dict[WebSocket, str]`. -/
structure ConnectionManager where
  active_connections : List (UserId × List ConnId)
  connection_users : List (ConnId × UserId)
deriving Repr, DecidableEq

namespace ConnectionManager

/-- The freshly constructed manager (both dicts empty). -/
def empty : ConnectionManager := ⟨[], []⟩

/-- `ConnectionManager.connect`: add `ws` to the user's connection set
    (creating the entry if absent) and record the reverse mapping. -/
def connect (mgr : ConnectionManager) (ws : ConnId) (user_id : UserId) :
    ConnectionManager :=
  let conns := (alookup mgr.active_connections user_id).getD []
  let conns' := if ws ∈ conns then conns else conns ++ [ws]
  { active_connections := aset mgr.active_connections user_id conns'
    connection_users := aset mgr.connection_users ws user_id }

/-- `ConnectionManager.disconnect`: look the user up through
    `connection_users`, discard `ws` from their set, delete the user's entry
    when the set becomes empty, and drop the reverse mapping. -/
def disconnect (mgr : ConnectionManager) (ws : ConnId) : ConnectionManager :=
  let mgr' :=
    match alookup mgr.connection_users ws with
    | none => mgr
    | some user_id =>
      match alookup mgr.active_connections user_id with
      | none => mgr
      | some conns =>
        let conns' := conns.erase ws
        if conns' = [] then
          { mgr with active_connections := aerase mgr.active_connections user_id }
        else
          { mgr with active_connections := aset mgr.active_connections user_id conns' }
  { mgr' with connection_users := aerase mgr'.connection_users ws }

/-- `ConnectionManager.is_user_online`: the user has a non-empty entry. -/
def is_user_online (mgr : ConnectionManager) (user_id : UserId) : Bool :=
  match alookup mgr.active_connections user_id with
  | some conns => conns.length > 0
  | none => false

/-- `ConnectionManager.send_to_user`: one send per live connection of the
    user, each tagged with the target user and connection. -/
def send_to_user (mgr : ConnectionManager) (msg : Event) (user_id : UserId) :
    List (UserId × ConnId × Event) :=
  match alookup mgr.active_connections user_id with
  | some conns => conns.map (fun c => (user_id, c, msg))
  | none => []

/-- `ConnectionManager.broadcast_to_conversation`: `send_to_user` for every
    participant other than `exclude_user`. -/
def broadcast_to_conversation (mgr : ConnectionManager) (msg : Event)
    (participant_ids : List UserId) (exclude_user : Option UserId) :
    List (UserId × ConnId × Event) :=
  ((participant_ids.filter (fun u => some u != exclude_user)).map
    (fun u => mgr.send_to_user msg u)).flatten

end ConnectionManager

/-! ## The registry as a state machine (for the pruning invariant) -/

/-- A mutation of the session registry. -/
inductive RegistryOp where
  | connect (ws : ConnId) (user_id : UserId)
  | disconnect (ws : ConnId)
deriving Repr, DecidableEq

/-- Apply one registry operation. -/
def applyOp (mgr : ConnectionManager) (op : RegistryOp) : ConnectionManager :=
  match op with
  | .connect ws user_id => mgr.connect ws user_id
  | .disconnect ws => mgr.disconnect ws

/-- Run a sequence of operations from the freshly constructed manager. -/
def runOps (ops : List RegistryOp) : ConnectionManager :=
  ops.foldl applyOp ConnectionManager.empty

/-- No key of `active_connections` maps to an empty connection set. -/
def NoEmptySets (mgr : ConnectionManager) : Prop :=
  ∀ p ∈ mgr.active_connections, p.2 ≠ []

/-! ## Message endpoints (`backend/app/api/v1/endpoints/messages.py`) -/

/-- `format_message_response`: message document to `MessageResponse`;
    `is_deleted` mirrors the document's `deleted_for_everyone` flag. -/
def format_message_response (message : Message) : MessageResponse :=
  { id := message.id
    conversation_id := message.conversation_id
    sender_id := message.sender_id
    encrypted_content := message.encrypted_content
    content_type := message.content_type
    recipient_keys := message.recipient_keys
    metadata := message.metadata
    status := message.status
    created_at := message.created_at
    is_deleted := message.deleted_for_everyone }

/-- `MessageCreate` (`models/message.py`).  The handler additionally reads
    `data.content`, which the schema does not declare; it is modelled here as
    a request field defaulting to the empty string. -/
structure MessageCreate where
  conversation_id : ConvId
  encrypted_content : String
  content_type : String
  recipient_keys : List RecipientKey
  media_url : Option String := none
  media_thumbnail : Option String := none
  file_size : Option Nat := none
  duration : Option Nat := none
  reply_to : Option MsgId := none
  is_ephemeral : Bool := false
  ttl_seconds : Option Nat := none
  view_once : Bool := false
  content : String := ""
deriving Repr, DecidableEq

/-- `send_message` (`POST /messages`): participant check, insert, update of
    the conversation's `last_message`, broadcast of `new_message` to all
    participants with `exclude_user=None`.  `now` is `datetime.utcnow()` and
    `newId` the ObjectId minted by `insert_one`. -/
def send_message (db : DB) (mgr : ConnectionManager) (data : MessageCreate)
    (current_user_id : UserId) (now : Time) (newId : MsgId) :
    Except ApiError (DB × MessageResponse × List (UserId × ConnId × Event)) :=
  match findConversation db data.conversation_id with
  | none => .error (.notFound "Conversation not found")
  | some conversation =>
    if current_user_id ∈ conversation.participant_ids then
      let metadata : MessageMetadata :=
        { media_url := data.media_url
          media_thumbnail := data.media_thumbnail
          file_size := data.file_size
          duration := data.duration
          reply_to := data.reply_to
          is_ephemeral := data.is_ephemeral
          ttl_seconds := data.ttl_seconds
          expires_at :=
            match data.ttl_seconds with
            | some t => if data.is_ephemeral && t != 0 then some (now + t) else none
            | none => none
          view_once := data.view_once
          viewed_by := [] }
      let message : Message :=
        { id := newId
          conversation_id := data.conversation_id
          sender_id := current_user_id
          content := data.content
          encrypted_content := data.encrypted_content
          content_type := data.content_type
          recipient_keys := data.recipient_keys
          metadata := metadata
          status := { sent_at := now, delivered_to := [], read_by := [] }
          deleted_for := []
          deleted_for_everyone := false
          deleted_at := none
          created_at := now }
      let db' := { db with messages := db.messages ++ [message] }
      let preview :=
        if data.encrypted_content != "" then data.encrypted_content.take 50
        else data.content.take 50
      let db'' := { db' with conversations := (update_first db'.conversations
          (fun c => c.id == data.conversation_id)
          (fun c => { c with
            last_message := some
              { message_id := newId
                encrypted_preview := preview
                timestamp := now
                sender_id := current_user_id }
            metadata :=
              { created_at := c.metadata.created_at
                updated_at := now
                archived_by := c.metadata.archived_by } })) }
      let events := mgr.broadcast_to_conversation
        (Event.new_message (format_message_response message))
        conversation.participant_ids none
      .ok (db'', format_message_response message, events)
    else
      .error (.forbidden "Not a participant in this conversation")

/-- Insert a message into a list sorted by `created_at` descending. -/
def insertDesc (m : Message) : List Message → List Message
  | [] => [m]
  | x :: xs => if m.created_at ≤ x.created_at then x :: insertDesc m xs
               else m :: x :: xs

/-- Mongo's `sort("created_at", -1)`: newest first. -/
def sortByCreatedAtDesc : List Message → List Message
  | [] => []
  | x :: xs => insertDesc x (sortByCreatedAtDesc xs)

/-- `get_messages` (`GET /messages/conversations/\x7bid\x7d/messages`).  The
    query excludes only the documents whose `deleted_for` contains the
    caller; `before` and `since` both write `query["created_at"]`, so a valid
    `since` overwrites the `before` bound. -/
def get_messages (db : DB) (conversation_id : ConvId) (limit : Nat)
    (before : Option MsgId) (since : Option Time) (current_user_id : UserId) :
    Except ApiError MessageListResponse :=
  match findConversation db conversation_id with
  | none => .error (.notFound "Conversation not found")
  | some conversation =>
    if current_user_id ∈ conversation.participant_ids then
      let before_filter : Option Time :=
        match before with
        | some b =>
          match findMessage db b with
          | some bm => some bm.created_at
          | none => none
        | none => none
      let matches_query : Message → Bool := fun m =>
        m.conversation_id == conversation_id &&
        !(m.deleted_for.contains current_user_id) &&
        (match since, before_filter with
         | some s, _ => s < m.created_at
         | none, some b => m.created_at < b
         | none, none => true)
      let messages := (sortByCreatedAtDesc (db.messages.filter matches_query)).take limit
      let total := (db.messages.filter (fun m =>
        m.conversation_id == conversation_id &&
        !(m.deleted_for.contains current_user_id))).length
      .ok { messages := messages.map format_message_response
            has_more := messages.length == limit
            total := total }
    else
      .error (.forbidden "Not a participant in this conversation")

/-- Mongo's positional update `participants.$.last_read_at`: rewrite the
    first matching array element. -/
def set_last_read (ps : List ConversationParticipant) (uid : UserId)
    (now : Time) : List ConversationParticipant :=
  match ps with
  | [] => []
  | p :: rest =>
    if p.user_id == uid then { p with last_read_at := some now } :: rest
    else p :: set_last_read rest uid now

/-- Append one `read_by` entry to a message document. -/
def pushReadBy (uid : UserId) (now : Time) (m : Message) : Message :=
  { m with status := { m.status with
      read_by := m.status.read_by ++ [{ user_id := uid, read_at := now }] } }

/-- `mark_message_read` (`POST /messages/\x7bid\x7d/read`): append to
    `read_by` unless the caller is already there, send a read receipt to the
    sender (unless the caller is the sender), advance `last_read_at` on the
    conversation's participant record.  There is no participant check. -/
def mark_message_read (db : DB) (message_id : MsgId) (current_user_id : UserId)
    (now : Time) : Except ApiError (DB × List (UserId × Event)) :=
  match findMessage db message_id with
  | none => .error (.notFound "Message not found")
  | some message =>
    let already_read := message.status.read_by.any (fun r => r.user_id == current_user_id)
    let db' :=
      if already_read then db
      else { db with messages := (update_first db.messages
              (fun m => m.id == message_id) (pushReadBy current_user_id now)) }
    let events :=
      if !already_read && message.sender_id != current_user_id then
        [(message.sender_id,
          Event.message_status_update message_id "read" current_user_id now)]
      else []
    let db'' := { db' with conversations := (update_first db'.conversations
        (fun c => c.id == message.conversation_id &&
                  c.participants.any (fun p => p.user_id == current_user_id))
        (fun c => { c with
          participants := set_last_read c.participants current_user_id now })) }
    .ok (db'', events)

/-- `delete_message` (`DELETE /messages/\x7bid\x7d`): delete-for-everyone is
    sender-only and limited to one hour after creation; delete-for-me adds
    the caller to `deleted_for` (`$addToSet`). -/
def delete_message (db : DB) (mgr : ConnectionManager) (message_id : MsgId)
    (delete_for_everyone : Bool) (current_user_id : UserId) (now : Time) :
    Except ApiError (DB × List (UserId × ConnId × Event)) :=
  match findMessage db message_id with
  | none => .error (.notFound "Message not found")
  | some message =>
    if delete_for_everyone then
      if message.sender_id != current_user_id then
        .error (.forbidden "Only sender can delete message for everyone")
      else if now - message.created_at > 3600 then
        .error (.badRequest "Can only delete for everyone within 1 hour of sending")
      else
        let db' := { db with messages := (update_first db.messages
            (fun m => m.id == message_id)
            (fun m => { m with deleted_for_everyone := true, deleted_at := some now })) }
        let events :=
          match findConversation db' message.conversation_id with
          | some conversation =>
            mgr.broadcast_to_conversation (Event.message_deleted message_id true)
              conversation.participant_ids none
          | none => []
        .ok (db', events)
    else
      let db' := { db with messages := (update_first db.messages
          (fun m => m.id == message_id)
          (fun m =>
            if m.deleted_for.contains current_user_id then m
            else { m with deleted_for := m.deleted_for ++ [current_user_id] })) }
      .ok (db', [])

/-! ## Conversation endpoints (`backend/app/api/v1/endpoints/conversations.py`) -/

/-- One entry of a `ConversationResponse`'s `participants` list. -/
structure ParticipantDetail where
  user_id : UserId
  username : String
  full_name : String
  avatar_url : Option String
  online : Bool
  last_seen : Option Time
deriving Repr, DecidableEq

/-- `ConversationResponse` (`models/conversation.py`). -/
structure ConversationResponse where
  id : ConvId
  type : String
  participants : List ParticipantDetail
  last_message : Option LastMessage
  unread_count : Nat
  created_at : Time
  updated_at : Time
deriving Repr, DecidableEq

/-- The unread-count computation inside `format_conversation_response`:
    zero unless the participant record exists, `last_message` is set, and
    `last_read_at` is unset or older than `last_message.timestamp`; then a
    count of this conversation's messages from other senders, filtered by
    `created_at > last_read_at` when `last_read_at` is set. -/
def unread_count (db : DB) (conversation : Conversation)
    (current_user_id : UserId) : Nat :=
  match conversation.participants.find? (fun p => p.user_id == current_user_id) with
  | none => 0
  | some current_participant =>
    match conversation.last_message with
    | none => 0
    | some lm =>
      match current_participant.last_read_at with
      | none =>
        (db.messages.filter (fun m =>
          m.conversation_id == conversation.id &&
          m.sender_id != current_user_id)).length
      | some lr =>
        if lm.timestamp > lr then
          (db.messages.filter (fun m =>
            m.conversation_id == conversation.id &&
            m.sender_id != current_user_id &&
            lr < m.created_at)).length
        else 0

/-- `format_conversation_response`: per-participant details (other users
    found in the store) and the derived unread count. -/
def format_conversation_response (db : DB) (conversation : Conversation)
    (current_user_id : UserId) : ConversationResponse :=
  { id := conversation.id
    type := conversation.type
    participants :=
      (conversation.participants.filter (fun p => p.user_id != current_user_id)).filterMap
        (fun p => (findUser db p.user_id).map (fun u =>
          { user_id := u.id
            username := u.username
            full_name := u.full_name
            avatar_url := u.avatar_url
            online := u.status.online
            last_seen := u.status.last_seen }))
    last_message := conversation.last_message
    unread_count := unread_count db conversation current_user_id
    created_at := conversation.metadata.created_at
    updated_at := conversation.metadata.updated_at }

/-- `sorted([current_user_id, data.participant_id])`. -/
def sortedPair (a b : UserId) : List UserId :=
  if a ≤ b then [a, b] else [b, a]

/-- `create_or_get_conversation` (`POST /conversations`): validate the other
    user exists, look the one-to-one conversation up by its canonical sorted
    participant pair, and create it only when absent.  Returns the id of the
    conversation whose formatted response the endpoint returns, and the
    resulting store. -/
def create_or_get_conversation (db : DB) (participant_id : UserId)
    (current_user_id : UserId) (now : Time) (newId : ConvId) :
    Except ApiError (ConvId × DB) :=
  match findUser db participant_id with
  | none => .error (.notFound "User not found")
  | some _ =>
    let pair := sortedPair current_user_id participant_id
    match db.conversations.find? (fun c =>
        c.type == "one_to_one" && c.participant_ids == pair) with
    | some existing => .ok (existing.id, db)
    | none =>
      let conversation : Conversation :=
        { id := newId
          type := "one_to_one"
          participants :=
            [ { user_id := current_user_id, joined_at := now }
            , { user_id := participant_id, joined_at := now } ]
          participant_ids := pair
          last_message := none
          metadata := { created_at := now, updated_at := now, archived_by := [] } }
      .ok (newId, { db with conversations := db.conversations ++ [conversation] })

/-! ## Websocket handlers (`backend/app/api/v1/endpoints/websocket.py`) -/

/-- `handle_message_read`: an unconditional `$push` onto `status.read_by`,
    then a read receipt to the message's sender. -/
def handle_message_read (db : DB) (user_id : UserId) (message_id : MsgId)
    (now : Time) : DB × List (UserId × Event) :=
  let db' := { db with messages := (update_first db.messages
      (fun m => m.id == message_id) (pushReadBy user_id now)) }
  match findMessage db' message_id with
  | none => (db', [])
  | some message =>
    (db', [(message.sender_id,
            Event.message_status_update message_id "read" user_id now)])

/-- `notify_contacts_status`: read the user's `friends` key (returning early
    when the user or the key is absent), keep the accepted entries, and send
    the presence event to each such friend who is online. -/
def notify_contacts_status (mgr : ConnectionManager) (db : DB)
    (user_id : UserId) (is_online : Bool) (now : Time) :
    List (UserId × Event) :=
  match findUser db user_id with
  | none => []
  | some user =>
    match user.friends with
    | none => []
    | some friends =>
      let friend_ids := (friends.filter (fun f => f.status == "accepted")).map
        (fun f => f.user_id)
      let status_event :=
        if is_online then Event.user_online user_id now
        else Event.user_offline user_id now
      (friend_ids.filter (fun f => mgr.is_user_online f)).map
        (fun f => (f, status_event))

/-- The `finally` block of `websocket_endpoint`: disconnect the socket, and
    when the user has no connection left, persist offline status and notify
    contacts. -/
def websocket_disconnect_flow (mgr : ConnectionManager) (db : DB)
    (ws : ConnId) (user_id : UserId) (now : Time) :
    ConnectionManager × DB × List (UserId × Event) :=
  let mgr' := mgr.disconnect ws
  if mgr'.is_user_online user_id then (mgr', db, [])
  else
    let db' := { db with users := (update_first db.users
        (fun u => u.id == user_id)
        (fun u => { u with status := { online := false, last_seen := some now } })) }
    (mgr', db', notify_contacts_status mgr' db' user_id false now)

/-- Number of deliveries in `evs` addressed to connection `c` of user `u`. -/
def sends_to (evs : List (UserId × ConnId × Event)) (u : UserId) (c : ConnId) : Nat :=
  (evs.filter (fun t => t.1 == u && t.2.1 == c)).length

/-- Modelled from the spec: the unread-count formula of spec section 4.4 in
    its own words — count persisted messages of the conversation with
    `sender_id != user_id` and `created_at > last_read_at`, or all such
    messages when `last_read_at` is unset.  Stated independently of the code
    for comparison with `unread_count`. -/
def spec_unread_count (db : DB) (conversation : Conversation)
    (current_user_id : UserId) (last_read_at : Option Time) : Nat :=
  (db.messages.filter (fun m =>
    m.conversation_id == conversation.id &&
    m.sender_id != current_user_id &&
    (match last_read_at with
     | some lr => decide (lr < m.created_at)
     | none => true))).length

/-! ## Concrete store and registry states used to evaluate the operations -/

/-- A one-to-one conversation between users 1 and 2. -/
def convC1 : Conversation :=
  { id := 1
    type := "one_to_one"
    participants := [{ user_id := 1, joined_at := 0 }, { user_id := 2, joined_at := 0 }]
    participant_ids := [1, 2]
    last_message := none
    metadata := { created_at := 0, updated_at := 0, archived_by := [] } }

/-- A message from user 1 already marked `deleted_for_everyone`. -/
def msgC1 : Message :=
  { id := 5
    conversation_id := 1
    sender_id := 1
    content := ""
    encrypted_content := "ciphertext"
    content_type := "text"
    recipient_keys := []
    metadata := {}
    status := { sent_at := 0, delivered_to := [], read_by := [] }
    deleted_for := []
    deleted_for_everyone := true
    deleted_at := some 10
    created_at := 0 }

/-- Store holding only `convC1` and `msgC1`. -/
def dbC1 : DB := { users := [], conversations := [convC1], messages := [msgC1], friendships := [] }

/-- A fresh message from user 1 with an empty `read_by`. -/
def msgC2 : Message :=
  { id := 1
    conversation_id := 1
    sender_id := 1
    content := ""
    encrypted_content := "enc"
    content_type := "text"
    recipient_keys := []
    metadata := {}
    status := { sent_at := 0, delivered_to := [], read_by := [] }
    deleted_for := []
    deleted_for_everyone := false
    deleted_at := none
    created_at := 0 }

/-- Store holding only `msgC2`. -/
def dbC2 : DB := { users := [], conversations := [], messages := [msgC2], friendships := [] }

/-- User 1, online, stored as the registration endpoint stores users:
    without a `friends` key. -/
def userC3a : User := { id := 1, username := "alice", status := { online := true } }

/-- User 2, online, also without a `friends` key. -/
def userC3b : User := { id := 2, username := "bob", status := { online := true } }

/-- An accepted friendship between users 1 and 2 in the `friendships`
    collection (where `endpoints/friends.py` stores them). -/
def friendshipC3 : Friendship :=
  { id := 1, requester_id := 1, addressee_id := 2, status := "accepted" }

/-- Store for the presence scenario. -/
def dbC3 : DB :=
  { users := [userC3a, userC3b], conversations := [], messages := [], friendships := [friendshipC3] }

/-- Registry with user 1 on connection 10 and user 2 on connection 20. -/
def mgrC3 : ConnectionManager :=
  { active_connections := [(1, [10]), (2, [20])], connection_users := [(10, 1), (20, 2)] }

/-- A message from user 1, created at time 0. -/
def msgC4 : Message :=
  { id := 1
    conversation_id := 1
    sender_id := 1
    content := ""
    encrypted_content := "enc"
    content_type := "text"
    recipient_keys := []
    metadata := {}
    status := { sent_at := 0, delivered_to := [], read_by := [] }
    deleted_for := []
    deleted_for_everyone := false
    deleted_at := none
    created_at := 0 }

/-- Store for the deletion scenario. -/
def dbC4 : DB := { users := [], conversations := [convC1], messages := [msgC4], friendships := [] }

/-- Store holding users 1 and 2 and no conversations. -/
def dbC5 : DB :=
  { users := [{ id := 1, username := "a" }, { id := 2, username := "b" }]
    conversations := []
    messages := []
    friendships := [] }

/-- The conversation document `create_or_get_conversation` inserts for
    requester `cur` and other user `pid`. -/
def newConv (cur pid : UserId) (nid : ConvId) (now : Time) : Conversation :=
  { id := nid
    type := "one_to_one"
    participants := [{ user_id := cur, joined_at := now }, { user_id := pid, joined_at := now }]
    participant_ids := sortedPair cur pid
    last_message := none
    metadata := { created_at := now, updated_at := now, archived_by := [] } }

/-- The store after user 1 opens a one-to-one conversation with user 2. -/
def dbC5after : DB :=
  { dbC5 with conversations :=
      [ { id := 7
          type := "one_to_one"
          participants := [{ user_id := 1, joined_at := 0 }, { user_id := 2, joined_at := 0 }]
          participant_ids := [1, 2]
          last_message := none
          metadata := { created_at := 0, updated_at := 0, archived_by := [] } } ] }

/-- A one-to-one conversation between users 1 and 2 with id 3. -/
def convC7 : Conversation :=
  { id := 3
    type := "one_to_one"
    participants := [{ user_id := 1, joined_at := 0 }, { user_id := 2, joined_at := 0 }]
    participant_ids := [1, 2]
    last_message := none
    metadata := { created_at := 0, updated_at := 0, archived_by := [] } }

/-- Registry with user 1 on connections 11 and 12, user 2 on connection 21. -/
def mgrC7 : ConnectionManager :=
  { active_connections := [(1, [11, 12]), (2, [21])]
    connection_users := [(11, 1), (12, 1), (21, 2)] }

/-- A plain text message request for conversation 3. -/
def dataC7 : MessageCreate :=
  { conversation_id := 3, encrypted_content := "enc", content_type := "text", recipient_keys := [] }

/-- Store for the send scenario. -/
def dbC7 : DB := { users := [], conversations := [convC7], messages := [], friendships := [] }

/-- An ephemeral message whose `expires_at` (5) has long passed. -/
def msgC8 : Message :=
  { id := 6
    conversation_id := 1
    sender_id := 1
    content := ""
    encrypted_content := "vanishing"
    content_type := "text"
    recipient_keys := []
    metadata := { is_ephemeral := true, ttl_seconds := some 5, expires_at := some 5 }
    status := { sent_at := 0, delivered_to := [], read_by := [] }
    deleted_for := []
    deleted_for_everyone := false
    deleted_at := none
    created_at := 0 }

/-- Store holding `convC1` and the expired `msgC8`. -/
def dbC8 : DB := { users := [], conversations := [convC1], messages := [msgC8], friendships := [] }

/-- An ephemeral message request with a 60-second time-to-live. -/
def dataC8 : MessageCreate :=
  { conversation_id := 1
    encrypted_content := "enc"
    content_type := "text"
    recipient_keys := []
    is_ephemeral := true
    ttl_seconds := some 60 }

/-- A conversation where participant 1 has `last_read_at = 10` and the last
    message (from user 2) is at time 20. -/
def convC9 : Conversation :=
  { id := 4
    type := "one_to_one"
    participants :=
      [ { user_id := 1, joined_at := 0, last_read_at := some 10 }
      , { user_id := 2, joined_at := 0 } ]
    participant_ids := [1, 2]
    last_message := some { message_id := 9, encrypted_preview := "p", timestamp := 20, sender_id := 2 }
    metadata := { created_at := 0, updated_at := 20, archived_by := [] } }

/-- The message behind `convC9`'s preview. -/
def msgC9 : Message :=
  { id := 9
    conversation_id := 4
    sender_id := 2
    content := ""
    encrypted_content := "p"
    content_type := "text"
    recipient_keys := []
    metadata := {}
    status := { sent_at := 20, delivered_to := [], read_by := [] }
    deleted_for := []
    deleted_for_everyone := false
    deleted_at := none
    created_at := 20 }

/-- Store for the unread-count scenario. -/
def dbC9 : DB := { users := [], conversations := [convC9], messages := [msgC9], friendships := [] }

/-- Store for the read-receipt scenario: `convC1` (participants 1 and 2)
    and `msgC4` in it; user 3 is not a participant. -/
def dbC10 : DB := { users := [], conversations := [convC1], messages := [msgC4], friendships := [] }

/-! ## Lemmas about the association-list helpers -/

theorem mem_aset {α β : Type} [BEq α] {m : List (α × β)} {k : α} {v : β}
    {p : α × β} (h : p ∈ aset m k v) : p ∈ m ∨ p = (k, v) := by
  unfold aset at h
  split at h
  · rcases List.mem_map.mp h with ⟨q, hq, hfq⟩
    by_cases hk : (q.1 == k) = true
    · right
      simpa [hk] using hfq.symm
    · left
      simp only [hk] at hfq
      simp only [Bool.false_eq_true, if_false] at hfq
      exact hfq ▸ hq
  · rcases List.mem_append.mp h with hm | hm
    · exact Or.inl hm
    · right
      simpa using hm

theorem mem_aerase {α β : Type} [BEq α] {m : List (α × β)} {k : α}
    {p : α × β} (h : p ∈ aerase m k) : p ∈ m :=
  List.mem_of_mem_filter h

theorem connect_preserves_NoEmptySets {mgr : ConnectionManager}
    (h : NoEmptySets mgr) (ws : ConnId) (user_id : UserId) :
    NoEmptySets (mgr.connect ws user_id) := by
  intro p hp
  rcases mem_aset hp with hm | hkv
  · exact h p hm
  · subst hkv
    dsimp only
    split
    · rename_i hmem
      intro hnil
      rw [hnil] at hmem
      simp at hmem
    · simp

theorem disconnect_preserves_NoEmptySets {mgr : ConnectionManager}
    (h : NoEmptySets mgr) (ws : ConnId) :
    NoEmptySets (mgr.disconnect ws) := by
  unfold ConnectionManager.disconnect
  intro p hp
  dsimp only at hp
  split at hp
  · exact h p hp
  · split at hp
    · exact h p hp
    · rename_i conns _ _
      split at hp
      · exact h p (mem_aerase hp)
      · rename_i hne
        rcases mem_aset hp with hm | hkv
        · exact h p hm
        · subst hkv
          exact hne

theorem applyOp_preserves_NoEmptySets {mgr : ConnectionManager}
    (h : NoEmptySets mgr) (op : RegistryOp) : NoEmptySets (applyOp mgr op) := by
  cases op with
  | connect ws user_id => exact connect_preserves_NoEmptySets h ws user_id
  | disconnect ws => exact disconnect_preserves_NoEmptySets h ws

theorem foldl_preserves_NoEmptySets (ops : List RegistryOp) :
    ∀ mgr : ConnectionManager, NoEmptySets mgr →
      NoEmptySets (ops.foldl applyOp mgr) := by
  induction ops with
  | nil => intro mgr h; exact h
  | cons op rest ih =>
    intro mgr h
    exact ih (applyOp mgr op) (applyOp_preserves_NoEmptySets h op)

theorem runOps_NoEmptySets (ops : List RegistryOp) : NoEmptySets (runOps ops) := by
  apply foldl_preserves_NoEmptySets
  intro p hp
  simp [ConnectionManager.empty] at hp

/-- C6: the session registry's map maintains, across every sequence of
    connect and disconnect operations, that a user_id key is present in
    `active_connections` if and only if that user's connection set is
    non-empty. -/
theorem claim_C6_registry_no_empty_sets (ops : List RegistryOp) (u : UserId) :
    (alookup (runOps ops).active_connections u).isSome ↔
      (alookup (runOps ops).active_connections u).getD [] ≠ [] := by
  constructor
  · intro hsome
    rcases Option.isSome_iff_exists.mp hsome with ⟨conns, hconns⟩
    rw [hconns]
    simp only [Option.getD_some]
    unfold alookup at hconns
    rcases Option.map_eq_some'.mp hconns with ⟨p, hp, hp2⟩
    have hmem := List.mem_of_find?_eq_some hp
    have := runOps_NoEmptySets ops p hmem
    rw [hp2] at this
    exact this
  · intro hne
    cases hlk : alookup (runOps ops).active_connections u with
    | none => rw [hlk] at hne; simp at hne
    | some conns => simp [hlk]

/-! ## Sorting, update and delivery-count lemmas -/

theorem insertDesc_perm (m : Message) (l : List Message) :
    (insertDesc m l).Perm (m :: l) := by
  induction l with
  | nil => exact List.Perm.refl _
  | cons x xs ih =>
    unfold insertDesc
    split
    · exact (ih.cons x).trans (List.Perm.swap m x xs)
    · exact List.Perm.refl _

theorem sortByCreatedAtDesc_perm (l : List Message) :
    (sortByCreatedAtDesc l).Perm l := by
  induction l with
  | nil => exact List.Perm.refl _
  | cons x xs ih =>
    exact (insertDesc_perm x (sortByCreatedAtDesc xs)).trans (ih.cons x)

theorem find?_update_first {α : Type} (l : List α) (p : α → Bool) (f : α → α)
    (hf : ∀ x, p x = true → p (f x) = true) :
    (update_first l p f).find? p = (l.find? p).map f := by
  induction l with
  | nil => rfl
  | cons x xs ih =>
    unfold update_first
    by_cases hx : p x = true
    · rw [if_pos hx, List.find?_cons_of_pos _ (hf x hx), List.find?_cons_of_pos _ hx]
      rfl
    · have hx' : ¬ p x := hx
      rw [if_neg hx, List.find?_cons_of_neg _ hx', List.find?_cons_of_neg _ hx']
      exact ih

theorem sends_to_nil (u : UserId) (c : ConnId) : sends_to [] u c = 0 := rfl

theorem sends_to_append (a b : List (UserId × ConnId × Event)) (u : UserId) (c : ConnId) :
    sends_to (a ++ b) u c = sends_to a u c + sends_to b u c := by
  simp [sends_to, List.filter_append]

theorem sends_to_map_conns (u' u : UserId) (c : ConnId) (msg : Event)
    (conns : List ConnId) :
    ((conns.map (fun c' => (u', c', msg))).filter
      (fun t => t.1 == u && t.2.1 == c)).length =
      if u' = u then conns.count c else 0 := by
  induction conns with
  | nil => simp
  | cons x xs ih =>
    by_cases hu : u' = u
    · subst hu
      by_cases hx : x = c
      · subst hx
        simp [List.filter_cons, List.count_cons, ih]
      · simp [List.filter_cons, List.count_cons, hx, ih]
    · simp [List.filter_cons, hu, ih]

theorem sends_to_send_to_user (mgr : ConnectionManager) (msg : Event)
    (u' u : UserId) (c : ConnId) :
    sends_to (mgr.send_to_user msg u') u c =
      if u' = u then ((alookup mgr.active_connections u').getD []).count c
      else 0 := by
  unfold ConnectionManager.send_to_user
  cases h : alookup mgr.active_connections u' with
  | none => simp [sends_to]
  | some conns =>
    simp only [Option.getD_some]
    exact sends_to_map_conns u' u c msg conns

theorem sends_to_flatten_zero (mgr : ConnectionManager) (msg : Event)
    (l : List UserId) (u : UserId) (c : ConnId) (hu : u ∉ l) :
    sends_to ((l.map (fun x => mgr.send_to_user msg x)).flatten) u c = 0 := by
  induction l with
  | nil => rfl
  | cons x xs ih =>
    have hxu : x ≠ u := fun h => hu (h ▸ List.mem_cons_self x xs)
    have hxs : u ∉ xs := fun h => hu (List.mem_cons_of_mem x h)
    simp only [List.map_cons, List.flatten_cons]
    rw [sends_to_append, sends_to_send_to_user, if_neg hxu, ih hxs]

theorem sends_to_flatten_once (mgr : ConnectionManager) (msg : Event)
    (l : List UserId) (u : UserId) (c : ConnId) (hnd : l.Nodup) (hu : u ∈ l) :
    sends_to ((l.map (fun x => mgr.send_to_user msg x)).flatten) u c =
      ((alookup mgr.active_connections u).getD []).count c := by
  induction l with
  | nil => cases hu
  | cons x xs ih =>
    simp only [List.map_cons, List.flatten_cons]
    rw [sends_to_append]
    rcases List.mem_cons.mp hu with hux | huxs
    · subst hux
      rw [sends_to_send_to_user, if_pos rfl,
        sends_to_flatten_zero mgr msg xs u c (List.Nodup.not_mem hnd)]
      omega
    · have hxu : x ≠ u := by
        intro h
        exact (List.Nodup.not_mem hnd) (h ▸ huxs)
      rw [sends_to_send_to_user, if_neg hxu, ih (List.Nodup.of_cons hnd) huxs]
      omega

theorem broadcast_none_eq (mgr : ConnectionManager) (msg : Event)
    (l : List UserId) :
    mgr.broadcast_to_conversation msg l none =
      ((l.map (fun x => mgr.send_to_user msg x)).flatten) := by
  unfold ConnectionManager.broadcast_to_conversation
  congr 1
  apply congrArg
  apply List.filter_eq_self.mpr
  intro a _
  rfl

theorem event_of_mem_broadcast (mgr : ConnectionManager) (msg : Event)
    (l : List UserId) (ex : Option UserId) (t : UserId × ConnId × Event)
    (ht : t ∈ mgr.broadcast_to_conversation msg l ex) : t.2.2 = msg := by
  unfold ConnectionManager.broadcast_to_conversation at ht
  rcases List.mem_flatten.mp ht with ⟨sub, hsub, htsub⟩
  rcases List.mem_map.mp hsub with ⟨x, _, hx⟩
  subst hx
  unfold ConnectionManager.send_to_user at htsub
  cases h : alookup mgr.active_connections x with
  | none => rw [h] at htsub; cases htsub
  | some conns =>
    rw [h] at htsub
    rcases List.mem_map.mp htsub with ⟨c, _, hc⟩
    rw [← hc]

/-! ## Claim C1 -/

/-- C1 counterexample: the claim states that a message whose
    `deleted_for_everyone` flag is set is excluded from every subsequent
    message-listing fetch and that its content is never returned.  Here the
    participant 2 fetches conversation 1 and receives the flagged message
    `msgC1` together with its `encrypted_content`; only the `is_deleted`
    marker is set on the response. -/
theorem claim_C1_counterexample :
    msgC1.deleted_for_everyone = true ∧
    get_messages dbC1 1 50 none none 2 =
      .ok { messages := [format_message_response msgC1], has_more := false, total := 1 } ∧
    (format_message_response msgC1).encrypted_content = "ciphertext" ∧
    (format_message_response msgC1).is_deleted = true := by
  refine ⟨rfl, ?_, rfl, rfl⟩
  rfl

/-! ## Claim C2 -/

/-- C2: the claim states that marking a message read is idempotent per user
    through either the HTTP endpoint or the websocket `message_read` event.
    The websocket handler `handle_message_read` pushes onto `status.read_by`
    unconditionally: two `message_read` events by user 7 for message 1 leave
    two entries for user 7. -/
theorem claim_C2_code_bug :
    ((findMessage (handle_message_read (handle_message_read dbC2 7 1 10).1 7 1 20).1 1).map
      (fun m => m.status.read_by)) =
        some [{ user_id := 7, read_at := 10 }, { user_id := 7, read_at := 20 }] ∧
    ((findMessage (handle_message_read (handle_message_read dbC2 7 1 10).1 7 1 20).1 1).map
      (fun m => (m.status.read_by.filter (fun r => r.user_id == 7)).length)) = some 2 := by
  exact ⟨rfl, rfl⟩

/-! ## Claim C3 -/

/-- C3: the claim states that removing a user's last live connection turns
    `is_online` false and generates exactly one offline notification per
    currently-online accepted friend.  The online/offline transition itself
    behaves as claimed, but `notify_contacts_status` reads the `friends` key
    of the user document, which no code path ever writes (friendships are
    stored in the separate `friendships` collection), so the disconnect of
    user 1's last connection emits no notification at all even though their
    accepted friend 2 is online. -/
theorem claim_C3_code_bug :
    mgrC3.is_user_online 1 = true ∧
    (mgrC3.disconnect 10).is_user_online 1 = false ∧
    (mgrC3.disconnect 10).is_user_online 2 = true ∧
    (dbC3.friendships.filter (fun f =>
      f.status == "accepted" && (f.requester_id == 1 || f.addressee_id == 1))).length = 1 ∧
    (websocket_disconnect_flow mgrC3 dbC3 10 1 50).2.2 = [] := by
  refine ⟨rfl, rfl, rfl, ?_, ?_⟩ <;> rfl

/-! ## Claim C8 (counterexample part) -/

/-- C8 counterexample: the claim states that every message whose
    `expires_at` has passed is excluded from message-listing reads.
    `get_messages` never consults `expires_at`: the ephemeral message
    `msgC8`, expired at time 5, is still returned in full to participant 2
    (the listing takes no clock at all). -/
theorem claim_C8_counterexample :
    msgC8.metadata.expires_at = some 5 ∧ (5 : Time) < 100 ∧
    get_messages dbC8 1 50 none none 2 =
      .ok { messages := [format_message_response msgC8], has_more := false, total := 1 } := by
  refine ⟨rfl, by decide, ?_⟩
  rfl

/-! ## Claim C4 -/

theorem findMessage_update_first (db : DB) (mid : MsgId) (f : Message → Message)
    (hf : ∀ x, (f x).id = x.id) :
    findMessage { db with messages := update_first db.messages (fun m => m.id == mid) f } mid =
      (findMessage db mid).map f := by
  unfold findMessage
  exact find?_update_first db.messages _ f (fun x hx => by rw [hf x]; exact hx)

/-- C4: delete-for-everyone is rejected with a forbidden error whenever the
    caller is not the message's sender; for the sender it is rejected with
    the time-window error once more than one hour has elapsed since
    creation, and within the hour it succeeds and sets the terminal
    `deleted_for_everyone` flag. -/
theorem claim_C4_delete_for_everyone (db : DB) (mgr : ConnectionManager)
    (mid : MsgId) (caller : UserId) (now : Time) (m : Message)
    (hfind : findMessage db mid = some m) :
    (caller ≠ m.sender_id →
      delete_message db mgr mid true caller now =
        .error (.forbidden "Only sender can delete message for everyone")) ∧
    (caller = m.sender_id → now - m.created_at > 3600 →
      delete_message db mgr mid true caller now =
        .error (.badRequest "Can only delete for everyone within 1 hour of sending")) ∧
    (caller = m.sender_id → now - m.created_at ≤ 3600 →
      ∃ db' evs, delete_message db mgr mid true caller now = .ok (db', evs) ∧
        (findMessage db' mid).map (fun x => x.deleted_for_everyone) = some true) := by
  refine ⟨?_, ?_, ?_⟩
  · intro hne
    have hcond : (m.sender_id != caller) = true := by
      simpa using Ne.symm hne
    simp [delete_message, hfind, hcond]
  · intro heq hgt
    have hcond : (m.sender_id != caller) = false := by
      simp [heq]
    simp [delete_message, hfind, hcond, hgt]
  · intro heq hle
    have hcond : (m.sender_id != caller) = false := by
      simp [heq]
    have hwin : ¬ (now - m.created_at > 3600) := Nat.not_lt.mpr hle
    simp only [delete_message, hfind, hcond, Bool.false_eq_true, if_false, if_true,
      hwin, ite_false, ite_true]
    refine ⟨_, _, rfl, ?_⟩
    rw [findMessage_update_first db mid
      (fun m => { m with deleted_for_everyone := true, deleted_at := some now })
      (fun x => rfl), hfind]
    rfl

/-- C4 witness: the three branches evaluated on the concrete store `dbC4`
    (message 1 sent by user 1 at time 0). -/
theorem claim_C4_witness :
    delete_message dbC4 ConnectionManager.empty 1 true 2 100 =
      .error (.forbidden "Only sender can delete message for everyone") ∧
    delete_message dbC4 ConnectionManager.empty 1 true 1 4000 =
      .error (.badRequest "Can only delete for everyone within 1 hour of sending") ∧
    ∃ db' evs, delete_message dbC4 ConnectionManager.empty 1 true 1 100 = .ok (db', evs) ∧
      (findMessage db' 1).map (fun x => x.deleted_for_everyone) = some true := by
  refine ⟨?_, ?_, ?_⟩
  · exact (claim_C4_delete_for_everyone dbC4 ConnectionManager.empty 1 2 100 msgC4 rfl).1
      (by decide)
  · exact (claim_C4_delete_for_everyone dbC4 ConnectionManager.empty 1 1 4000 msgC4 rfl).2.1
      rfl (by decide)
  · exact (claim_C4_delete_for_everyone dbC4 ConnectionManager.empty 1 1 100 msgC4 rfl).2.2
      rfl (by decide)

/-! ## Claim C10 -/

/-- C10: the HTTP mark-message-read endpoint performs no participant check:
    the caller is an arbitrary user (no hypothesis relates it to the
    conversation's participants), yet for every existing message the call
    succeeds, appends the caller once to `read_by` when not already present,
    and sends a read receipt to the sender. -/
theorem claim_C10_mark_read_no_participant_check (db : DB) (mid : MsgId)
    (caller : UserId) (now : Time) (m : Message)
    (hfind : findMessage db mid = some m)
    (hnew : ∀ r ∈ m.status.read_by, r.user_id ≠ caller)
    (hns : caller ≠ m.sender_id) :
    ∃ db', mark_message_read db mid caller now =
        .ok (db', [(m.sender_id, Event.message_status_update mid "read" caller now)]) ∧
      ((findMessage db' mid).map (fun x => x.status.read_by)) =
        some (m.status.read_by ++ [{ user_id := caller, read_at := now }]) ∧
      ((m.status.read_by ++ [({ user_id := caller, read_at := now } : ReadStatus)]).filter
        (fun r => r.user_id == caller)).length = 1 := by
  have har : m.status.read_by.any (fun r => r.user_id == caller) = false := by
    rw [List.any_eq_false]
    intro r hr
    simpa using hnew r hr
  have hsend : (m.sender_id != caller) = true := by
    simpa using Ne.symm hns
  have hfind' : db.messages.find? (fun x => x.id == mid) = some m := hfind
  refine ⟨⟨db.users,
      update_first db.conversations
        (fun c => c.id == m.conversation_id &&
                  c.participants.any (fun p => p.user_id == caller))
        (fun c => { c with participants := set_last_read c.participants caller now }),
      update_first db.messages (fun x => x.id == mid) (pushReadBy caller now),
      db.friendships⟩, ?_, ?_, ?_⟩
  · simp only [mark_message_read, hfind, har, hsend, Bool.not_false, Bool.true_and,
      if_true, ite_true, Bool.false_eq_true, if_false, ite_false]
  · show ((update_first db.messages (fun x => x.id == mid)
        (pushReadBy caller now)).find? (fun x => x.id == mid)).map
        (fun x => x.status.read_by) = _
    rw [find?_update_first db.messages (fun x => x.id == mid) (pushReadBy caller now)
      (fun x hx => hx), hfind']
    rfl
  · rw [List.filter_append]
    rw [List.filter_eq_nil_iff.mpr (fun r hr => by simpa using hnew r hr)]
    simp

/-- C10 witness: user 3, not a participant of conversation 1 (participants
    are 1 and 2), marks message 1 read and succeeds. -/
theorem claim_C10_witness :
    (convC1.participant_ids.contains 3) = false ∧
    (∃ db', mark_message_read dbC10 1 3 40 =
        .ok (db', [(msgC4.sender_id, Event.message_status_update 1 "read" 3 40)]) ∧
      ((findMessage db' 1).map (fun x => x.status.read_by)) =
        some (msgC4.status.read_by ++ [{ user_id := 3, read_at := 40 }]) ∧
      ((msgC4.status.read_by ++ [({ user_id := 3, read_at := 40 } : ReadStatus)]).filter
        (fun r => r.user_id == 3)).length = 1) :=
  ⟨by decide, claim_C10_mark_read_no_participant_check dbC10 1 3 40 msgC4 rfl
    (by decide) (by decide)⟩

/-! ## Claim C5 -/

theorem sortedPair_comm (a b : UserId) : sortedPair b a = sortedPair a b := by
  unfold sortedPair
  by_cases h : a ≤ b
  · by_cases h' : b ≤ a
    · have hab : a = b := Nat.le_antisymm h h'
      subst hab
      rfl
    · rw [if_neg h', if_pos h]
  · have h' : b ≤ a := Nat.le_of_not_le h
    rw [if_pos h', if_neg h]

theorem create_or_get_found (db : DB) (pid cur : UserId) (now : Time)
    (nid : ConvId) (u : User) (e : Conversation)
    (hu : findUser db pid = some u)
    (he : db.conversations.find? (fun c =>
      c.type == "one_to_one" && c.participant_ids == sortedPair cur pid) = some e) :
    create_or_get_conversation db pid cur now nid = .ok (e.id, db) := by
  unfold create_or_get_conversation
  rw [hu]
  simp only [he]

theorem create_or_get_creates (db : DB) (pid cur : UserId) (now : Time)
    (nid : ConvId) (u : User)
    (hu : findUser db pid = some u)
    (he : db.conversations.find? (fun c =>
      c.type == "one_to_one" && c.participant_ids == sortedPair cur pid) = none) :
    create_or_get_conversation db pid cur now nid =
      .ok (nid, { db with conversations := db.conversations ++ [newConv cur pid nid now] }) := by
  unfold create_or_get_conversation
  rw [hu]
  simp only [he]
  rfl

theorem newConv_matches (cur pid : UserId) (nid : ConvId) (now : Time) :
    ((newConv cur pid nid now).type == "one_to_one" &&
     (newConv cur pid nid now).participant_ids == sortedPair cur pid) = true := by
  simp [newConv]

/-- C5: creating a one-to-one conversation for the same pair of users a
    second time, in either argument order, returns the conversation id of
    the first call and leaves the store unchanged (no second conversation
    document is inserted). -/
theorem claim_C5_one_to_one_dedup (db : DB) (a b : UserId) (now1 now2 : Time)
    (id1 id2 : ConvId) (i : ConvId) (db1 : DB)
    (ha : (findUser db a).isSome) (hb : (findUser db b).isSome)
    (h1 : create_or_get_conversation db b a now1 id1 = .ok (i, db1)) :
    create_or_get_conversation db1 a b now2 id2 = .ok (i, db1) ∧
    create_or_get_conversation db1 b a now2 id2 = .ok (i, db1) := by
  rcases Option.isSome_iff_exists.mp ha with ⟨ua, hua⟩
  rcases Option.isSome_iff_exists.mp hb with ⟨ub, hub⟩
  cases hex : db.conversations.find? (fun c =>
      c.type == "one_to_one" && c.participant_ids == sortedPair a b) with
  | some existing =>
    rw [create_or_get_found db b a now1 id1 ub existing hub hex] at h1
    simp only [Except.ok.injEq, Prod.mk.injEq] at h1
    obtain ⟨hi, hdb⟩ := h1
    subst hdb
    constructor
    · rw [create_or_get_found db a b now2 id2 ua existing hua
        (by simp only [sortedPair_comm a b]; exact hex), hi]
    · rw [create_or_get_found db b a now2 id2 ub existing hub hex, hi]
  | none =>
    rw [create_or_get_creates db b a now1 id1 ub hub hex] at h1
    simp only [Except.ok.injEq, Prod.mk.injEq] at h1
    obtain ⟨hi, hdb⟩ := h1
    have hfind : db1.conversations.find? (fun c =>
        c.type == "one_to_one" && c.participant_ids == sortedPair a b) =
        some (newConv a b id1 now1) := by
      rw [← hdb]
      show (db.conversations ++ [newConv a b id1 now1]).find? _ = _
      rw [List.find?_append, hex, Option.none_or,
        @List.find?_cons_of_pos _
          (fun c => c.type == "one_to_one" && c.participant_ids == sortedPair a b)
          (newConv a b id1 now1) [] (newConv_matches a b id1 now1)]
    have hua1 : findUser db1 a = some ua := by
      rw [← hdb]
      exact hua
    have hub1 : findUser db1 b = some ub := by
      rw [← hdb]
      exact hub
    have hid : (newConv a b id1 now1).id = i := by
      rw [← hi]
      rfl
    constructor
    · rw [create_or_get_found db1 a b now2 id2 ua (newConv a b id1 now1) hua1
        (by simp only [sortedPair_comm a b]; exact hfind), hid]
    · rw [create_or_get_found db1 b a now2 id2 ub (newConv a b id1 now1) hub1 hfind, hid]

/-- C5 witness: user 1 opens a conversation with user 2, then the creation
    is repeated in both argument orders; both repeats return id 7 and leave
    the store unchanged. -/
theorem claim_C5_witness :
    create_or_get_conversation dbC5 2 1 0 7 = .ok (7, dbC5after) ∧
    create_or_get_conversation dbC5after 1 2 5 9 = .ok (7, dbC5after) ∧
    create_or_get_conversation dbC5after 2 1 5 9 = .ok (7, dbC5after) := by
  have h := claim_C5_one_to_one_dedup dbC5 1 2 0 5 7 9 7 dbC5after
    (by decide) (by decide) (by rfl)
  exact ⟨by rfl, h.1, h.2⟩

/-! ## Claim C9 -/

/-- C9: for a conversation with a `last_message` and a participant record,
    the unread count carried by the formatted conversation response (used by
    both the conversation-list and conversation-get paths) is zero when
    `last_read_at` is set and not older than `last_message.timestamp`, and
    otherwise equals the spec's count of messages from other senders newer
    than `last_read_at` (all such messages when `last_read_at` is unset). -/
theorem claim_C9_unread_count (db : DB) (conv : Conversation) (uid : UserId)
    (p : ConversationParticipant) (lm : LastMessage)
    (hp : conv.participants.find? (fun q => q.user_id == uid) = some p)
    (hlm : conv.last_message = some lm) :
    (∀ lr, p.last_read_at = some lr → lm.timestamp ≤ lr →
      (format_conversation_response db conv uid).unread_count = 0) ∧
    (∀ lr, p.last_read_at = some lr → lr < lm.timestamp →
      (format_conversation_response db conv uid).unread_count =
        spec_unread_count db conv uid (some lr)) ∧
    (p.last_read_at = none →
      (format_conversation_response db conv uid).unread_count =
        spec_unread_count db conv uid none) := by
  refine ⟨?_, ?_, ?_⟩
  · intro lr hlr hle
    show unread_count db conv uid = 0
    simp only [unread_count, hp, hlm, hlr]
    rw [if_neg (Nat.not_lt.mpr hle)]
  · intro lr hlr hlt
    show unread_count db conv uid = spec_unread_count db conv uid (some lr)
    simp only [unread_count, hp, hlm, hlr]
    rw [if_pos hlt]
    rfl
  · intro hnone
    show unread_count db conv uid = spec_unread_count db conv uid none
    simp only [unread_count, hp, hlm, hnone, spec_unread_count, Bool.and_true]

/-- C9 witness: in `convC9`, participant 1 has `last_read_at = 10` and the
    last message (from user 2) is at time 20, so the unread count is the
    spec's count, which is 1. -/
theorem claim_C9_witness :
    (format_conversation_response dbC9 convC9 1).unread_count =
      spec_unread_count dbC9 convC9 1 (some 10) ∧
    (format_conversation_response dbC9 convC9 1).unread_count = 1 :=
  ⟨(claim_C9_unread_count dbC9 convC9 1
      { user_id := 1, joined_at := 0, last_read_at := some 10 }
      { message_id := 9, encrypted_preview := "p", timestamp := 20, sender_id := 2 }
      rfl rfl).2.1 10 rfl (by decide), by rfl⟩

/-! ## Claim C7 -/

/-- C7: sending a message rejects non-participants with a forbidden error;
    on success it appends the message document to the store, rewrites the
    conversation's denormalized `last_message`, and broadcasts the
    `new_message` event exactly once to every live connection of every
    participant, the sender's own connections included. -/
theorem claim_C7_send_message (db : DB) (mgr : ConnectionManager)
    (data : MessageCreate) (caller : UserId) (now : Time) (newId : MsgId)
    (conversation : Conversation)
    (hconv : findConversation db data.conversation_id = some conversation) :
    (caller ∉ conversation.participant_ids →
      send_message db mgr data caller now newId =
        .error (.forbidden "Not a participant in this conversation")) ∧
    (caller ∈ conversation.participant_ids →
      ∃ db' resp evs, send_message db mgr data caller now newId = .ok (db', resp, evs) ∧
        (∃ msg : Message, db'.messages = db.messages ++ [msg] ∧ msg.id = newId ∧
          msg.sender_id = caller ∧ msg.conversation_id = data.conversation_id ∧
          msg.encrypted_content = data.encrypted_content ∧
          resp = format_message_response msg) ∧
        ((findConversation db' data.conversation_id).map (fun c => c.last_message)) =
          some (some
            { message_id := newId
              encrypted_preview :=
                if data.encrypted_content != "" then data.encrypted_content.take 50
                else data.content.take 50
              timestamp := now
              sender_id := caller }) ∧
        (∀ t ∈ evs, t.2.2 = Event.new_message resp) ∧
        (conversation.participant_ids.Nodup →
          ∀ p ∈ conversation.participant_ids,
            ∀ conns, alookup mgr.active_connections p = some conns →
              conns.Nodup → ∀ c ∈ conns, sends_to evs p c = 1)) := by
  constructor
  · intro hnotin
    simp only [send_message, hconv]
    rw [if_neg hnotin]
  · intro hin
    simp only [send_message, hconv]
    rw [if_pos hin]
    refine ⟨_, _, _, rfl, ⟨_, rfl, rfl, rfl, rfl, rfl, rfl⟩, ?_, ?_, ?_⟩
    · have hconv' : db.conversations.find? (fun c => c.id == data.conversation_id) =
          some conversation := hconv
      simp only [findConversation]
      rw [find?_update_first db.conversations (fun c => c.id == data.conversation_id)
        (fun c => { c with
          last_message := some
            { message_id := newId
              encrypted_preview :=
                if data.encrypted_content != "" then data.encrypted_content.take 50
                else data.content.take 50
              timestamp := now
              sender_id := caller }
          metadata :=
            { created_at := c.metadata.created_at
              updated_at := now
              archived_by := c.metadata.archived_by } })
        (fun x hx => hx), hconv']
      rfl
    · intro t ht
      exact event_of_mem_broadcast mgr _ conversation.participant_ids none t ht
    · intro hnd p hp conns hconns hcnodup c hc
      rw [broadcast_none_eq]
      rw [sends_to_flatten_once mgr _ conversation.participant_ids p c hnd hp]
      rw [hconns]
      exact List.count_eq_one_of_mem hcnodup hc

/-- C7 witness: user 5 (not a participant) is rejected; user 1 sends to
    conversation 3 (participants 1 and 2, user 1 with two devices) and the
    broadcast reaches each of the connections 11, 12 and 21 exactly once. -/
theorem claim_C7_witness :
    send_message dbC7 mgrC7 dataC7 5 30 42 =
      .error (.forbidden "Not a participant in this conversation") ∧
    (∃ db' resp evs, send_message dbC7 mgrC7 dataC7 1 30 42 = .ok (db', resp, evs) ∧
      (∃ msg : Message, db'.messages = dbC7.messages ++ [msg] ∧ msg.id = 42 ∧
        msg.sender_id = 1 ∧ msg.conversation_id = dataC7.conversation_id ∧
        msg.encrypted_content = dataC7.encrypted_content ∧
        resp = format_message_response msg) ∧
      ((findConversation db' dataC7.conversation_id).map (fun c => c.last_message)) =
        some (some
          { message_id := 42
            encrypted_preview :=
              if dataC7.encrypted_content != "" then dataC7.encrypted_content.take 50
              else dataC7.content.take 50
            timestamp := 30
            sender_id := 1 }) ∧
      (∀ t ∈ evs, t.2.2 = Event.new_message resp) ∧
      (convC7.participant_ids.Nodup →
        ∀ p ∈ convC7.participant_ids,
          ∀ conns, alookup mgrC7.active_connections p = some conns →
            conns.Nodup → ∀ c ∈ conns, sends_to evs p c = 1)) := by
  have h1 := claim_C7_send_message dbC7 mgrC7 dataC7 1 30 42 convC7 rfl
  have h5 := claim_C7_send_message dbC7 mgrC7 dataC7 5 30 42 convC7 rfl
  exact ⟨h5.1 (by decide), h1.2 (by decide)⟩

/-! ## Membership in a message listing (shared by the amended C1 and C8) -/

theorem mem_get_messages (db : DB) (cid : ConvId) (caller : UserId)
    (conversation : Conversation) (m : Message) (limit : Nat)
    (hconv : findConversation db cid = some conversation)
    (hpart : caller ∈ conversation.participant_ids)
    (hm : m ∈ db.messages) (hmc : m.conversation_id = cid)
    (hdel : caller ∉ m.deleted_for)
    (hlim : (db.messages.filter (fun x =>
      x.conversation_id == cid && !(x.deleted_for.contains caller))).length ≤ limit) :
    ∃ resp, get_messages db cid limit none none caller = .ok resp ∧
      format_message_response m ∈ resp.messages := by
  simp only [get_messages, hconv, Bool.and_true]
  rw [if_pos hpart]
  refine ⟨_, rfl, ?_⟩
  have hq : (m.conversation_id == cid && !(m.deleted_for.contains caller)) = true := by
    simp [hmc, hdel]
  have hmf : m ∈ db.messages.filter (fun x =>
      x.conversation_id == cid && !(x.deleted_for.contains caller)) :=
    List.mem_filter.mpr ⟨hm, hq⟩
  have hsort := sortByCreatedAtDesc_perm (db.messages.filter (fun x =>
      x.conversation_id == cid && !(x.deleted_for.contains caller)))
  have hlen : (sortByCreatedAtDesc (db.messages.filter (fun x =>
      x.conversation_id == cid && !(x.deleted_for.contains caller)))).length ≤ limit := by
    rw [hsort.length_eq]
    exact hlim
  rw [List.take_of_length_le hlen]
  exact List.mem_map.mpr ⟨m, hsort.mem_iff.mpr hmf, rfl⟩

/-! ## Claim C1 (amended part) -/

/-- C1 amended: a message flagged `deleted_for_everyone` is not excluded
    from message-listing fetches; it is returned to any participant not in
    its `deleted_for` list, with its `encrypted_content` intact and only the
    response's `is_deleted` marker set. -/
theorem claim_C1_amended (db : DB) (cid : ConvId) (caller : UserId)
    (conversation : Conversation) (m : Message) (limit : Nat)
    (hconv : findConversation db cid = some conversation)
    (hpart : caller ∈ conversation.participant_ids)
    (hm : m ∈ db.messages) (hmc : m.conversation_id = cid)
    (hdel : caller ∉ m.deleted_for)
    (hdfe : m.deleted_for_everyone = true)
    (hlim : (db.messages.filter (fun x =>
      x.conversation_id == cid && !(x.deleted_for.contains caller))).length ≤ limit) :
    ∃ resp, get_messages db cid limit none none caller = .ok resp ∧
      format_message_response m ∈ resp.messages ∧
      (format_message_response m).encrypted_content = m.encrypted_content ∧
      (format_message_response m).is_deleted = true := by
  obtain ⟨resp, h1, h2⟩ :=
    mem_get_messages db cid caller conversation m limit hconv hpart hm hmc hdel hlim
  exact ⟨resp, h1, h2, rfl, hdfe⟩

/-- C1 amended witness: the flagged `msgC1` is returned in full to
    participant 2. -/
theorem claim_C1_amended_witness :
    ∃ resp, get_messages dbC1 1 50 none none 2 = .ok resp ∧
      format_message_response msgC1 ∈ resp.messages ∧
      (format_message_response msgC1).encrypted_content = msgC1.encrypted_content ∧
      (format_message_response msgC1).is_deleted = true :=
  claim_C1_amended dbC1 1 2 convC1 msgC1 50 rfl (by decide) (by decide) rfl
    (by decide) rfl (by decide)

/-! ## Claim C8 (amended part) -/

/-- C8 amended: for an ephemeral message created with a non-zero
    time-to-live, `expires_at = now + ttl` is computed at creation; but a
    message whose `expires_at` has passed is not excluded from
    message-listing reads — `get_messages` consults no clock and returns it
    like any other message. -/
theorem claim_C8_amended :
    (∀ (db : DB) (mgr : ConnectionManager) (data : MessageCreate) (caller : UserId)
       (now : Time) (newId : MsgId) (conversation : Conversation) (t : Nat),
      findConversation db data.conversation_id = some conversation →
      caller ∈ conversation.participant_ids →
      data.is_ephemeral = true → data.ttl_seconds = some t → t ≠ 0 →
      ∃ db' resp evs, send_message db mgr data caller now newId = .ok (db', resp, evs) ∧
        resp.metadata.expires_at = some (now + t)) ∧
    (∀ (db : DB) (cid : ConvId) (caller : UserId) (conversation : Conversation)
       (m : Message) (limit : Nat) (now e : Time),
      findConversation db cid = some conversation →
      caller ∈ conversation.participant_ids →
      m ∈ db.messages → m.conversation_id = cid → caller ∉ m.deleted_for →
      m.metadata.expires_at = some e → e < now →
      (db.messages.filter (fun x =>
        x.conversation_id == cid && !(x.deleted_for.contains caller))).length ≤ limit →
      ∃ resp, get_messages db cid limit none none caller = .ok resp ∧
        format_message_response m ∈ resp.messages ∧
        (format_message_response m).encrypted_content = m.encrypted_content) := by
  constructor
  · intro db mgr data caller now newId conversation t hconv hin heph httl hnz
    simp only [send_message, hconv]
    rw [if_pos hin]
    refine ⟨_, _, _, rfl, ?_⟩
    show (match data.ttl_seconds with
          | some t' => if data.is_ephemeral && t' != 0 then some (now + t') else none
          | none => none) = some (now + t)
    rw [httl]
    simp [heph, hnz]
  · intro db cid caller conversation m limit now e hconv hpart hm hmc hdel _ _ hlim
    obtain ⟨resp, h1, h2⟩ :=
      mem_get_messages db cid caller conversation m limit hconv hpart hm hmc hdel hlim
    exact ⟨resp, h1, h2, rfl⟩

/-- C8 amended witness: sending `dataC8` (ephemeral, ttl 60) at time 100
    yields `expires_at = 160`; and the long-expired `msgC8` (expired at 5)
    is still returned to participant 2. -/
theorem claim_C8_amended_witness :
    (∃ db' resp evs,
      send_message dbC8 ConnectionManager.empty dataC8 2 100 77 = .ok (db', resp, evs) ∧
        resp.metadata.expires_at = some 160) ∧
    (∃ resp, get_messages dbC8 1 50 none none 2 = .ok resp ∧
      format_message_response msgC8 ∈ resp.messages ∧
      (format_message_response msgC8).encrypted_content = msgC8.encrypted_content) :=
  ⟨claim_C8_amended.1 dbC8 ConnectionManager.empty dataC8 2 100 77 convC1 60
      rfl (by decide) rfl rfl (by decide),
   claim_C8_amended.2 dbC8 1 2 convC1 msgC8 50 100 5 rfl (by decide) (by decide)
      rfl (by decide) rfl (by decide) (by decide)⟩

end Habibi
